import Mathlib

/-!
Verification of the bthread low-level substrate (brpc-learn):
shallow embedding of `src/bthread/stack.cpp` (stack-storage allocator) and
`src/bthread/context.cpp` (context-switch primitive, linux x86_64 and
linux arm64 variants), with theorems settling the spec claims.
-/

namespace Bthread

/-! ## Machine arithmetic

Pointers are 64-bit; `int` values are 32-bit two's complement.  `wrap64`
reduces a pointer computation modulo `2^64`; `sub64` is 64-bit pointer
subtraction.  `wrap32` wraps a signed-int computation into
`[-2^31, 2^31)` (the behaviour of two's-complement hardware on signed
overflow); `toU32`/`toS32` convert between the signed value and its
unsigned 32-bit representative. -/

def wrap64 (x : Nat) : Nat := x % 2 ^ 64

def sub64 (a b : Nat) : Nat := (a + 2 ^ 64 - b % 2 ^ 64) % 2 ^ 64

def wrap32 (x : Int) : Int := (x + 2 ^ 31) % 2 ^ 32 - 2 ^ 31

def toU32 (x : Int) : Int := x % 2 ^ 32

def toS32 (u : Int) : Int := if u < 2 ^ 31 then u else u - 2 ^ 32

/-- Clearing the low `k` bits of a 32-bit two's-complement value:
the source's `x & ~PAGESIZE_M1` with `PAGESIZE = 2^k`. -/
def andNotLow (k : Nat) (x : Int) : Int :=
  toS32 (toU32 x - toU32 x % 2 ^ k)

/-- The source's page-rounding `(x + PAGESIZE_M1) & ~PAGESIZE_M1` on `int`,
with `PAGESIZE = 2^k` (`getpagesize()` is always a power of two). -/
def alignPage (k : Nat) (x : Int) : Int :=
  andNotLow k (wrap32 (x + (2 ^ k - 1)))

/-- A pointer value (`uintptr_t` representative in `[0, 2^64)`). -/
def wrapPtr (x : Int) : Int := x % 2 ^ 64

/-- Pointer plus (possibly negative) byte offset, modulo `2^64`. -/
def ptrAdd (p d : Int) : Int := wrapPtr (p + d)

/-! ## Embedding of `src/bthread/stack.cpp`

OS calls (`malloc`, `mmap`, `mprotect`, `munmap`, `free`) and the valgrind
instrumentation are external: their results are supplied by an `OsEnv`
record and the calls actually performed are recorded in an `OsAction`
trace.  The process-wide live-stack counter `s_stack_count` is passed as
explicit state. -/

/-- One OS / instrumentation call performed by the allocator. -/
inductive OsAction where
  | mallocCall (size : Int) (ret : Int) : OsAction
  | mmapCall (size : Int) (ret : Option Int) : OsAction
  | mprotectCall (addr : Int) (len : Int) (ok : Bool) : OsAction
  | munmapCall (addr : Int) (size : Int) : OsAction
  | freeCall (addr : Int) : OsAction
  | valgrindRegister (id : Int) : OsAction
  | valgrindDeregister (id : Int) : OsAction
deriving DecidableEq

/-- What the host OS returns to the allocator on this call:
`mallocRet` is the pointer returned by `malloc` (`0` = NULL failure),
`mmapRet` is the address returned by `mmap` (`none` = `MAP_FAILED`),
`mprotectOk` tells whether `mprotect` succeeds, `onValgrind` is
`RunningOnValgrind()`, `valgrindId` the registration token. -/
structure OsEnv where
  mallocRet : Int
  mmapRet : Option Int
  mprotectOk : Bool
  onValgrind : Bool
  valgrindId : Int
deriving DecidableEq

/-- `bthread::StackStorage`: `bottom` is the highest address of the usable
region, `stacksize` and `guardsize` are C `int` fields, plus the valgrind
token. -/
structure StackStorage where
  bottom : Int
  stacksize : Int
  guardsize : Int
  valgrind_stack_id : Int
deriving DecidableEq

/-- Result of `allocate_stack_storage`: the C return value, the output
struct (unchanged on failure), the live-stack counter after the call, and
the OS calls performed. -/
structure AllocOut where
  ret : Int
  s : StackStorage
  count : Int
  trace : List OsAction
deriving DecidableEq

/-- Embedding of `allocate_stack_storage` (stack.cpp lines 56-161) with
`PAGESIZE = 2^k`.  `s` is the caller-supplied struct, `count` the value of
`s_stack_count` before the call. -/
def allocate_stack_storage (k : Nat) (env : OsEnv) (s : StackStorage)
    (count : Int) (stacksize_in guardsize_in : Int) : AllocOut :=
  let PAGESIZE : Int := 2 ^ k
  let MIN_STACKSIZE : Int := PAGESIZE * 2
  let MIN_GUARDSIZE : Int := PAGESIZE
  let stacksize : Int := alignPage k (max stacksize_in MIN_STACKSIZE)
  if guardsize_in ≤ 0 then
    let mem : Int := env.mallocRet
    if mem = 0 then
      ⟨-1, s, count, [OsAction.mallocCall stacksize 0]⟩
    else
      let s1 : StackStorage :=
        { bottom := ptrAdd mem stacksize
          stacksize := stacksize
          guardsize := 0
          valgrind_stack_id := if env.onValgrind then env.valgrindId else 0 }
      ⟨0, s1, count + 1,
        OsAction.mallocCall stacksize mem ::
          (if env.onValgrind then [OsAction.valgrindRegister env.valgrindId] else [])⟩
  else
    let guardsize : Int := alignPage k (max guardsize_in MIN_GUARDSIZE)
    let memsize : Int := wrap32 (stacksize + guardsize)
    match env.mmapRet with
    | none => ⟨-1, s, count, [OsAction.mmapCall memsize none]⟩
    | some mem =>
      let aligned_mem : Int :=
        let u := wrapPtr (mem + (PAGESIZE - 1));
        u - u % 2 ^ k
      let offset : Int := wrap32 (aligned_mem - mem)
      if guardsize ≤ offset then
        ⟨-1, s, count,
          [OsAction.mmapCall memsize (some mem), OsAction.munmapCall mem memsize]⟩
      else if ¬ env.mprotectOk then
        ⟨-1, s, count,
          [OsAction.mmapCall memsize (some mem),
           OsAction.mprotectCall aligned_mem (wrap32 (guardsize - offset)) false,
           OsAction.munmapCall mem memsize]⟩
      else
        let s1 : StackStorage :=
          { bottom := ptrAdd mem memsize
            stacksize := stacksize
            guardsize := guardsize
            valgrind_stack_id := if env.onValgrind then env.valgrindId else 0 }
        ⟨0, s1, count + 1,
          OsAction.mmapCall memsize (some mem) ::
            OsAction.mprotectCall aligned_mem (wrap32 (guardsize - offset)) true ::
            (if env.onValgrind then [OsAction.valgrindRegister env.valgrindId] else [])⟩

/-- Result of `deallocate_stack_storage`: counter after the call and OS
calls performed. -/
structure DeallocOut where
  count : Int
  trace : List OsAction
deriving DecidableEq

/-- Embedding of `deallocate_stack_storage` (stack.cpp lines 163-177). -/
def deallocate_stack_storage (env : OsEnv) (s : StackStorage)
    (count : Int) : DeallocOut :=
  let t0 : List OsAction :=
    if env.onValgrind then [OsAction.valgrindDeregister s.valgrind_stack_id] else []
  let memsize : Int := wrap32 (s.stacksize + s.guardsize)
  if wrapPtr s.bottom ≤ wrapPtr memsize then
    ⟨count, t0⟩
  else
    let base : Int := ptrAdd s.bottom (-memsize)
    if s.guardsize ≤ 0 then
      ⟨count - 1, t0 ++ [OsAction.freeCall base]⟩
    else
      ⟨count - 1, t0 ++ [OsAction.munmapCall base memsize]⟩

/-! ## Embedding of `src/bthread/context.cpp`

Memory is a map from 64-bit byte addresses to stored values; each store in
the assembly writes at a distinct, non-overlapping address (8-byte slots
for pushes/pops, the two 4-byte slots `mxcsr`/`fcw` at offsets 0 and 4 of
the reserved 8-byte area), so a flat address-indexed map is a faithful
model of the frame layout. -/

def Mem : Type := Nat → Nat

/-- Write value `v` at address `a`. -/
def Mem.write (m : Mem) (a v : Nat) : Mem :=
  fun x => if x = a then v else m x

/-- Output of `bthread_make_fcontext`: the returned context pointer (in
`%rax`) and the memory after the frame has been filled in. -/
structure MakeOut where
  ctx : Nat
  mem : Mem

/-- Embedding of `bthread_make_fcontext`, linux x86_64 (context.cpp lines
430-454).  The asm: `movq %rdi,%rax; andq $-16,%rax; leaq -0x48(%rax),%rax;
movq %rdx,0x38(%rax); stmxcsr (%rax); fnstcw 0x4(%rax);
leaq finish(%rip),%rcx; movq %rcx,0x40(%rax); ret`.
`sp` is `%rdi` (stack top), `fn` is `%rdx` (the entry function's address),
`mxcsr`/`fcw` the current FP control words, `finishAddr` the address of the
`finish` trampoline.  The second C argument (stack size) is never read by
this variant. -/
def bthread_make_fcontext (sp fn mxcsr fcw finishAddr : Nat) (m : Mem) :
    MakeOut :=
  let rax := sub64 (wrap64 sp - wrap64 sp % 16) 0x48
  let m := m.write (wrap64 (rax + 0x38)) fn
  let m := m.write rax mxcsr
  let m := m.write (wrap64 (rax + 4)) fcw
  let m := m.write (wrap64 (rax + 0x40)) finishAddr
  ⟨rax, m⟩

/-- Callee-saved register file of the linux x86_64 variant, plus the two
FP control words. -/
structure X64Save where
  rbp : Nat
  rbx : Nat
  r15 : Nat
  r14 : Nat
  r13 : Nat
  r12 : Nat
  mxcsr : Nat
  fcw : Nat

/-- Output of `bthread_jump_fcontext` (x86_64): `savedCtx` is the context
value stored through the first argument (`movq %rsp,(%rdi)`), `target` the
resume address jumped to (`jmp *%r8`), `arg`/`ret` the values of
`%rdi`/`%rax` at the jump (the resumed code's first argument and return
value), `rsp` the stack pointer at the jump, `regs` the restored register
file, `mem` the memory after the switch. -/
structure X64JumpOut where
  savedCtx : Nat
  target : Nat
  arg : Nat
  ret : Nat
  rsp : Nat
  regs : X64Save
  mem : Mem

/-- Embedding of `bthread_jump_fcontext`, linux x86_64 (context.cpp lines
357-398).  Arguments follow the SysV ABI: `rsp0` is `%rsp` on entry (the
call's return address sits at `m rsp0`), `r` the current callee-saved
registers, `ofc` = `%rdi` (where the suspended context is stored),
`nfc` = `%rsi` (the context to resume), `vp` = `%rdx` (transfer value),
`preserve_fpu` = `%rcx`.  The asm pushes rbp,rbx,r15,r14,r13,r12, reserves
8 bytes, conditionally stores mxcsr/fcw there, records `%rsp` into `*ofc`,
switches `%rsp` to `nfc`, conditionally reloads mxcsr/fcw, pops the six
registers and the resume address, moves `vp` into `%rax` and `%rdi` and
jumps. -/
def bthread_jump_fcontext (rsp0 : Nat) (r : X64Save) (ofc nfc vp : Nat)
    (preserve_fpu : Bool) (m : Mem) : X64JumpOut :=
  let m := m.write (sub64 rsp0 8) r.rbp
  let m := m.write (sub64 rsp0 16) r.rbx
  let m := m.write (sub64 rsp0 24) r.r15
  let m := m.write (sub64 rsp0 32) r.r14
  let m := m.write (sub64 rsp0 40) r.r13
  let m := m.write (sub64 rsp0 48) r.r12
  let rsp := sub64 rsp0 56
  let m := if preserve_fpu then
      (m.write rsp r.mxcsr).write (wrap64 (rsp + 4)) r.fcw
    else m
  let m := m.write (wrap64 ofc) rsp
  let rsp := wrap64 nfc
  let mxcsr1 := if preserve_fpu then m rsp else r.mxcsr
  let fcw1 := if preserve_fpu then m (wrap64 (rsp + 4)) else r.fcw
  let r12' := m (wrap64 (nfc + 8))
  let r13' := m (wrap64 (nfc + 16))
  let r14' := m (wrap64 (nfc + 24))
  let r15' := m (wrap64 (nfc + 32))
  let rbx' := m (wrap64 (nfc + 40))
  let rbp' := m (wrap64 (nfc + 48))
  let r8 := m (wrap64 (nfc + 56))
  ⟨sub64 rsp0 56, r8, vp, vp, wrap64 (nfc + 64),
    ⟨rbp', rbx', r15', r14', r13', r12', mxcsr1, fcw1⟩, m⟩

/-- Outcome of executing the `finish` trampoline. -/
inductive ControlOutcome where
  | fallsThrough (toCaller : Nat) : ControlOutcome
  | procExit (status : Nat) : ControlOutcome
deriving DecidableEq

/-- Embedding of the `finish` trampoline installed by
`bthread_make_fcontext` (x86_64, context.cpp lines 446-449):
`xorq %rdi,%rdi; call _exit@PLT; hlt`.  `_exit` never returns, so the
outcome is always process termination with status 0, whatever `%rdi` held
before. -/
def finish (rdiBefore : Nat) : ControlOutcome :=
  let rdi := 0
  ControlOutcome.procExit rdi

/-- A normal `ret` executed by the resumed entry function transfers
control to the address stored at the current stack pointer. -/
def normalReturnTarget (rsp : Nat) (m : Mem) : Nat := m rsp

/-- Callee-saved register file of the linux arm64 variant: d8-d15 and
x19-x30. -/
structure A64Save where
  d8 : Nat
  d9 : Nat
  d10 : Nat
  d11 : Nat
  d12 : Nat
  d13 : Nat
  d14 : Nat
  d15 : Nat
  x19 : Nat
  x20 : Nat
  x21 : Nat
  x22 : Nat
  x23 : Nat
  x24 : Nat
  x25 : Nat
  x26 : Nat
  x27 : Nat
  x28 : Nat
  x29 : Nat
  x30 : Nat

/-- Output of the arm64 `bthread_jump_fcontext`. -/
structure A64JumpOut where
  savedCtx : Nat
  target : Nat
  ret : Nat
  sp : Nat
  regs : A64Save
  mem : Mem

/-- Embedding of `bthread_jump_fcontext`, linux arm64 (context.cpp lines
662-729).  `sp0` is `sp` on entry, `x0` the address receiving the
suspended context, `x1` the context to resume, `x2` the transfer value,
`w3` the `preserve_fpu` argument.  In this variant the `preserve_fpu`
test is commented out in the source (lines 678-680 and 702-704), so
d8-d15 are saved and restored unconditionally and `w3` is never read. -/
def bthread_jump_fcontext_arm64 (sp0 : Nat) (r : A64Save) (x0 x1 x2 : Nat)
    (w3 : Bool) (m : Mem) : A64JumpOut :=
  let sp := sub64 sp0 0xb0
  let m := m.write sp r.d8
  let m := m.write (wrap64 (sp + 0x8)) r.d9
  let m := m.write (wrap64 (sp + 0x10)) r.d10
  let m := m.write (wrap64 (sp + 0x18)) r.d11
  let m := m.write (wrap64 (sp + 0x20)) r.d12
  let m := m.write (wrap64 (sp + 0x28)) r.d13
  let m := m.write (wrap64 (sp + 0x30)) r.d14
  let m := m.write (wrap64 (sp + 0x38)) r.d15
  let m := m.write (wrap64 (sp + 0x40)) r.x19
  let m := m.write (wrap64 (sp + 0x48)) r.x20
  let m := m.write (wrap64 (sp + 0x50)) r.x21
  let m := m.write (wrap64 (sp + 0x58)) r.x22
  let m := m.write (wrap64 (sp + 0x60)) r.x23
  let m := m.write (wrap64 (sp + 0x68)) r.x24
  let m := m.write (wrap64 (sp + 0x70)) r.x25
  let m := m.write (wrap64 (sp + 0x78)) r.x26
  let m := m.write (wrap64 (sp + 0x80)) r.x27
  let m := m.write (wrap64 (sp + 0x88)) r.x28
  let m := m.write (wrap64 (sp + 0x90)) r.x29
  let m := m.write (wrap64 (sp + 0x98)) r.x30
  let m := m.write (wrap64 (sp + 0xa0)) r.x30
  let m := m.write (wrap64 x0) sp
  let sp := wrap64 x1
  let d8' := m sp
  let d9' := m (wrap64 (sp + 0x8))
  let d10' := m (wrap64 (sp + 0x10))
  let d11' := m (wrap64 (sp + 0x18))
  let d12' := m (wrap64 (sp + 0x20))
  let d13' := m (wrap64 (sp + 0x28))
  let d14' := m (wrap64 (sp + 0x30))
  let d15' := m (wrap64 (sp + 0x38))
  let x19' := m (wrap64 (sp + 0x40))
  let x20' := m (wrap64 (sp + 0x48))
  let x21' := m (wrap64 (sp + 0x50))
  let x22' := m (wrap64 (sp + 0x58))
  let x23' := m (wrap64 (sp + 0x60))
  let x24' := m (wrap64 (sp + 0x68))
  let x25' := m (wrap64 (sp + 0x70))
  let x26' := m (wrap64 (sp + 0x78))
  let x27' := m (wrap64 (sp + 0x80))
  let x28' := m (wrap64 (sp + 0x88))
  let x29' := m (wrap64 (sp + 0x90))
  let x30' := m (wrap64 (sp + 0x98))
  let target := m (wrap64 (sp + 0xa0))
  ⟨sub64 sp0 0xb0, target, x2, wrap64 (x1 + 0xb0),
    ⟨d8', d9', d10', d11', d12', d13', d14', d15',
     x19', x20', x21', x22', x23', x24', x25', x26', x27', x28', x29', x30'⟩,
    m⟩

/-- Virtual-memory calls (`mmap` / `mprotect` / `munmap`). -/
def isVmCall : OsAction → Bool
  | OsAction.mmapCall _ _ => true
  | OsAction.mprotectCall _ _ _ => true
  | OsAction.munmapCall _ _ => true
  | _ => false

/-- Memory-releasing calls (`free` / `munmap`). -/
def isRelease : OsAction → Bool
  | OsAction.freeCall _ => true
  | OsAction.munmapCall _ _ => true
  | _ => false

/-- Heap-allocation calls (`malloc`). -/
def isMalloc : OsAction → Bool
  | OsAction.mallocCall _ _ => true
  | _ => false

/-! ## Arithmetic and memory helper lemmas -/

theorem Mem.write_self (m : Mem) (a v : Nat) : m.write a v a = v := by
  simp [Mem.write]

theorem Mem.write_other (m : Mem) {a b : Nat} (v : Nat) (h : b ≠ a) :
    m.write a v b = m b := by
  simp [Mem.write, h]

theorem wrap64_small {x : Nat} (h : x < 2 ^ 64) : wrap64 x = x :=
  Nat.mod_eq_of_lt h

theorem sub64_small {a b : Nat} (h1 : b ≤ a) (h2 : a < 2 ^ 64) :
    sub64 a b = a - b := by
  unfold sub64
  rw [Nat.mod_eq_of_lt (lt_of_le_of_lt h1 h2)]
  have h3 : a + 2 ^ 64 - b = (a - b) + 2 ^ 64 := by omega
  rw [h3, Nat.add_mod_right]
  exact Nat.mod_eq_of_lt (by omega)

theorem wrap32_small {x : Int} (h1 : -(2 ^ 31) ≤ x) (h2 : x < 2 ^ 31) :
    wrap32 x = x := by
  unfold wrap32
  rw [Int.emod_eq_of_lt (by omega) (by omega)]
  omega

/-- Under no-overflow conditions, page rounding lands in `[x, x + 2^k)`,
is a multiple of the page size, and stays in `int` range. -/
theorem alignPage_spec {k : Nat} {x : Int} (hx : 0 ≤ x)
    (hx2 : x + 2 ^ k - 1 < 2 ^ 31) :
    x ≤ alignPage k x ∧ alignPage k x < x + 2 ^ k ∧
      (2 ^ k : Int) ∣ alignPage k x := by
  have hp : (0 : Int) < 2 ^ k := by positivity
  have hy0 : (0 : Int) ≤ x + (2 ^ k - 1) := by omega
  have hy1 : x + (2 ^ k - 1) < 2 ^ 31 := by omega
  have h31 : (2 ^ 31 : Int) < 2 ^ 32 := by norm_num
  unfold alignPage andNotLow
  rw [wrap32_small (by omega) hy1]
  unfold toU32 toS32
  rw [Int.emod_eq_of_lt hy0 (by omega)]
  set y := x + (2 ^ k - 1) with hy
  have hr0 : 0 ≤ y % 2 ^ k := Int.emod_nonneg y (by positivity)
  have hr1 : y % 2 ^ k < 2 ^ k := Int.emod_lt_of_pos y hp
  rw [if_pos (by omega)]
  refine ⟨by omega, by omega, ?_⟩
  refine ⟨y / 2 ^ k, ?_⟩
  have := Int.ediv_add_emod y (2 ^ k)
  omega

/-- Page rounding always yields a multiple of the page size
(for any page size dividing `2^32`). -/
theorem alignPage_dvd {k : Nat} (hk : k ≤ 32) (x : Int) :
    (2 ^ k : Int) ∣ alignPage k x := by
  have hp : (0 : Int) < 2 ^ k := by positivity
  unfold alignPage andNotLow toS32
  set u := toU32 (wrap32 (x + (2 ^ k - 1))) with hu
  have hdvd : (2 ^ k : Int) ∣ u - u % 2 ^ k := by
    refine ⟨u / 2 ^ k, ?_⟩
    have := Int.ediv_add_emod u (2 ^ k)
    omega
  have h32 : (2 ^ k : Int) ∣ 2 ^ 32 := pow_dvd_pow 2 hk
  split
  · exact hdvd
  · exact dvd_sub hdvd h32

/-- Output range of page rounding: always a representable `int`. -/
theorem alignPage_range (k : Nat) (x : Int) :
    -(2 ^ 31) ≤ alignPage k x ∧ alignPage k x < 2 ^ 31 := by
  have hp : (0 : Int) < 2 ^ k := by positivity
  unfold alignPage andNotLow toS32 toU32
  set w := wrap32 (x + (2 ^ k - 1)) with hw
  have h0 : 0 ≤ w % 2 ^ 32 := Int.emod_nonneg w (by norm_num)
  have h1 : w % 2 ^ 32 < 2 ^ 32 := Int.emod_lt_of_pos w (by norm_num)
  have hr0 : 0 ≤ w % 2 ^ 32 % 2 ^ k := Int.emod_nonneg _ (by positivity)
  have hr1 : w % 2 ^ 32 % 2 ^ k ≤ w % 2 ^ 32 := by
    have hq : 0 ≤ w % 2 ^ 32 / 2 ^ k := Int.ediv_nonneg h0 (le_of_lt hp)
    have hqq : 0 ≤ 2 ^ k * (w % 2 ^ 32 / 2 ^ k) := mul_nonneg (le_of_lt hp) hq
    have heq := Int.ediv_add_emod (w % 2 ^ 32) (2 ^ k)
    omega
  split <;> omega

/-! ### Normal forms for the context primitives -/

theorem make_ctx_eq (sp fn mxcsr fcw finishAddr : Nat) (m : Mem)
    (hsp : sp < 2 ^ 64) (hlo : 0x48 ≤ sp - sp % 16) :
    (bthread_make_fcontext sp fn mxcsr fcw finishAddr m).ctx =
      sp - sp % 16 - 0x48 := by
  unfold bthread_make_fcontext
  rw [wrap64_small hsp]
  exact sub64_small hlo (by omega)

theorem make_mem_eq (sp fn mxcsr fcw finishAddr : Nat) (m : Mem)
    (hsp : sp < 2 ^ 64) (hlo : 0x48 ≤ sp - sp % 16) (a : Nat) :
    (bthread_make_fcontext sp fn mxcsr fcw finishAddr m).mem a =
      (if a = (sp - sp % 16 - 0x48) + 0x40 then finishAddr
       else if a = (sp - sp % 16 - 0x48) + 4 then fcw
       else if a = sp - sp % 16 - 0x48 then mxcsr
       else if a = (sp - sp % 16 - 0x48) + 0x38 then fn
       else m a) := by
  unfold bthread_make_fcontext
  rw [wrap64_small hsp, sub64_small hlo (by omega)]
  dsimp only
  rw [wrap64_small (x := sp - sp % 16 - 0x48 + 0x38) (by omega)]
  rw [wrap64_small (x := sp - sp % 16 - 0x48 + 4) (by omega)]
  rw [wrap64_small (x := sp - sp % 16 - 0x48 + 0x40) (by omega)]
  simp only [Mem.write]

theorem jump_mem_untouched (rsp0 : Nat) (r : X64Save) (ofc nfc vp : Nat)
    (p : Bool) (m : Mem) (a : Nat)
    (h0 : 64 ≤ rsp0) (h1 : rsp0 < 2 ^ 64) (h2 : ofc < 2 ^ 64)
    (ha : a ≠ ofc) (haR : a < rsp0 - 56 ∨ rsp0 ≤ a) :
    (bthread_jump_fcontext rsp0 r ofc nfc vp p m).mem a = m a := by
  unfold bthread_jump_fcontext
  rw [sub64_small (show 8 ≤ rsp0 by omega) h1,
    sub64_small (show 16 ≤ rsp0 by omega) h1,
    sub64_small (show 24 ≤ rsp0 by omega) h1,
    sub64_small (show 32 ≤ rsp0 by omega) h1,
    sub64_small (show 40 ≤ rsp0 by omega) h1,
    sub64_small (show 48 ≤ rsp0 by omega) h1,
    sub64_small (show 56 ≤ rsp0 by omega) h1,
    wrap64_small h2]
  dsimp only
  rw [wrap64_small (x := rsp0 - 56 + 4) (by omega)]
  cases p
  · simp only [Bool.false_eq_true, if_false]
    rw [Mem.write_other _ _ ha,
      Mem.write_other _ _ (show a ≠ rsp0 - 48 by omega),
      Mem.write_other _ _ (show a ≠ rsp0 - 40 by omega),
      Mem.write_other _ _ (show a ≠ rsp0 - 32 by omega),
      Mem.write_other _ _ (show a ≠ rsp0 - 24 by omega),
      Mem.write_other _ _ (show a ≠ rsp0 - 16 by omega),
      Mem.write_other _ _ (show a ≠ rsp0 - 8 by omega)]
  · simp only [if_true]
    rw [Mem.write_other _ _ ha,
      Mem.write_other _ _ (show a ≠ rsp0 - 56 + 4 by omega),
      Mem.write_other _ _ (show a ≠ rsp0 - 56 by omega),
      Mem.write_other _ _ (show a ≠ rsp0 - 48 by omega),
      Mem.write_other _ _ (show a ≠ rsp0 - 40 by omega),
      Mem.write_other _ _ (show a ≠ rsp0 - 32 by omega),
      Mem.write_other _ _ (show a ≠ rsp0 - 24 by omega),
      Mem.write_other _ _ (show a ≠ rsp0 - 16 by omega),
      Mem.write_other _ _ (show a ≠ rsp0 - 8 by omega)]

theorem jump_outputs (rsp0 : Nat) (r : X64Save) (ofc nfc vp : Nat)
    (p : Bool) (m : Mem)
    (h0 : 64 ≤ rsp0) (h1 : rsp0 < 2 ^ 64) (h3 : nfc + 64 < 2 ^ 64) :
    (bthread_jump_fcontext rsp0 r ofc nfc vp p m).savedCtx = rsp0 - 56 ∧
    (bthread_jump_fcontext rsp0 r ofc nfc vp p m).arg = vp ∧
    (bthread_jump_fcontext rsp0 r ofc nfc vp p m).ret = vp ∧
    (bthread_jump_fcontext rsp0 r ofc nfc vp p m).rsp = nfc + 64 ∧
    (bthread_jump_fcontext rsp0 r ofc nfc vp p m).target =
      (bthread_jump_fcontext rsp0 r ofc nfc vp p m).mem (nfc + 56) := by
  unfold bthread_jump_fcontext
  dsimp only
  rw [sub64_small (show 56 ≤ rsp0 by omega) h1,
    wrap64_small (x := nfc + 64) (by omega),
    wrap64_small (x := nfc + 56) (by omega)]
  exact ⟨rfl, rfl, rfl, rfl, rfl⟩

theorem jump_mem_fpu_slot (rsp0 : Nat) (r : X64Save) (ofc nfc vp : Nat)
    (p : Bool) (m : Mem)
    (h0 : 64 ≤ rsp0) (h1 : rsp0 < 2 ^ 64) (h2 : ofc < 2 ^ 64)
    (ho1 : ofc ≠ rsp0 - 56) (ho2 : ofc ≠ rsp0 - 52) :
    (bthread_jump_fcontext rsp0 r ofc nfc vp p m).mem (rsp0 - 56) =
      (if p then r.mxcsr else m (rsp0 - 56)) ∧
    (bthread_jump_fcontext rsp0 r ofc nfc vp p m).mem (rsp0 - 52) =
      (if p then r.fcw else m (rsp0 - 52)) := by
  unfold bthread_jump_fcontext
  rw [sub64_small (show 8 ≤ rsp0 by omega) h1,
    sub64_small (show 16 ≤ rsp0 by omega) h1,
    sub64_small (show 24 ≤ rsp0 by omega) h1,
    sub64_small (show 32 ≤ rsp0 by omega) h1,
    sub64_small (show 40 ≤ rsp0 by omega) h1,
    sub64_small (show 48 ≤ rsp0 by omega) h1,
    sub64_small (show 56 ≤ rsp0 by omega) h1,
    wrap64_small h2]
  dsimp only
  rw [wrap64_small (x := rsp0 - 56 + 4) (by omega)]
  have h4 : rsp0 - 56 + 4 = rsp0 - 52 := by omega
  rw [h4]
  cases p
  · simp only [Bool.false_eq_true, if_false]
    constructor
    · rw [Mem.write_other _ _ (Ne.symm ho1),
        Mem.write_other _ _ (show rsp0 - 56 ≠ rsp0 - 48 by omega),
        Mem.write_other _ _ (show rsp0 - 56 ≠ rsp0 - 40 by omega),
        Mem.write_other _ _ (show rsp0 - 56 ≠ rsp0 - 32 by omega),
        Mem.write_other _ _ (show rsp0 - 56 ≠ rsp0 - 24 by omega),
        Mem.write_other _ _ (show rsp0 - 56 ≠ rsp0 - 16 by omega),
        Mem.write_other _ _ (show rsp0 - 56 ≠ rsp0 - 8 by omega)]
    · rw [Mem.write_other _ _ (Ne.symm ho2),
        Mem.write_other _ _ (show rsp0 - 52 ≠ rsp0 - 48 by omega),
        Mem.write_other _ _ (show rsp0 - 52 ≠ rsp0 - 40 by omega),
        Mem.write_other _ _ (show rsp0 - 52 ≠ rsp0 - 32 by omega),
        Mem.write_other _ _ (show rsp0 - 52 ≠ rsp0 - 24 by omega),
        Mem.write_other _ _ (show rsp0 - 52 ≠ rsp0 - 16 by omega),
        Mem.write_other _ _ (show rsp0 - 52 ≠ rsp0 - 8 by omega)]
  · simp only [if_true]
    constructor
    · rw [Mem.write_other _ _ (Ne.symm ho1),
        Mem.write_other _ _ (show rsp0 - 56 ≠ rsp0 - 52 by omega),
        Mem.write_self]
    · rw [Mem.write_other _ _ (Ne.symm ho2), Mem.write_self]

theorem jump_regs_fpu (rsp0 : Nat) (r : X64Save) (ofc nfc vp : Nat)
    (p : Bool) (m : Mem) (hn : nfc < 2 ^ 64) :
    (bthread_jump_fcontext rsp0 r ofc nfc vp p m).regs.mxcsr =
      (if p then (bthread_jump_fcontext rsp0 r ofc nfc vp p m).mem nfc
       else r.mxcsr) ∧
    (bthread_jump_fcontext rsp0 r ofc nfc vp p m).regs.fcw =
      (if p then (bthread_jump_fcontext rsp0 r ofc nfc vp p m).mem
          (wrap64 (nfc + 4))
       else r.fcw) := by
  unfold bthread_jump_fcontext
  dsimp only
  rw [wrap64_small hn]
  exact ⟨rfl, rfl⟩

/-! ## Claim theorems -/

/-- C9 counterexample: for `stack_top = 160`, `bthread_make_fcontext`
(linux x86_64) computes the frame location `(160 & ~15) - 0x48 = 88`,
and `88 % 16 = 8 ≠ 0`: the frame location is not 16-byte aligned,
refuting the claim that `make_context` computes a 16-byte-aligned frame
location. -/
theorem make_fcontext_alignment_counterexample :
    (bthread_make_fcontext 160 777 1 2 888 (fun _ => 0)).ctx = 88 ∧
    ¬ (bthread_make_fcontext 160 777 1 2 888 (fun _ => 0)).ctx % 16 = 0 := by
  constructor <;> decide

/-- C9 (amended): `bthread_make_fcontext` is pure memory setup: for every
`stack_top` (and any stack size, which this variant never reads) it
computes the frame location by aligning `stack_top` down to 16 bytes and
subtracting 0x48 — so the frame address is ≡ 8 (mod 16), below
`stack_top` — stores the entry function's address in the frame as the
resume target (offset 0x38), stores the trampoline's address as the
return address the entry function will see on a normal return (offset
0x40), returns a pointer to that frame, touches no memory outside the
frame's four initialized slots, and executes no code of the entry
function: its result is the same for every entry function except for the
stored resume-target word. -/
theorem make_fcontext_spec (sp fn mxcsr fcw finishAddr : Nat) (m : Mem)
    (hsp : sp < 2 ^ 64) (hlo : 0x48 ≤ sp - sp % 16) :
    (bthread_make_fcontext sp fn mxcsr fcw finishAddr m).ctx =
      sp - sp % 16 - 0x48 ∧
    (bthread_make_fcontext sp fn mxcsr fcw finishAddr m).ctx % 16 = 8 ∧
    (bthread_make_fcontext sp fn mxcsr fcw finishAddr m).ctx < sp ∧
    (bthread_make_fcontext sp fn mxcsr fcw finishAddr m).mem
        ((sp - sp % 16 - 0x48) + 0x38) = fn ∧
    (bthread_make_fcontext sp fn mxcsr fcw finishAddr m).mem
        ((sp - sp % 16 - 0x48) + 0x40) = finishAddr ∧
    (∀ a, a ≠ sp - sp % 16 - 0x48 → a ≠ (sp - sp % 16 - 0x48) + 4 →
      a ≠ (sp - sp % 16 - 0x48) + 0x38 → a ≠ (sp - sp % 16 - 0x48) + 0x40 →
      (bthread_make_fcontext sp fn mxcsr fcw finishAddr m).mem a = m a) ∧
    (∀ fn2,
      (bthread_make_fcontext sp fn2 mxcsr fcw finishAddr m).ctx =
        (bthread_make_fcontext sp fn mxcsr fcw finishAddr m).ctx ∧
      ∀ a, a ≠ (sp - sp % 16 - 0x48) + 0x38 →
        (bthread_make_fcontext sp fn2 mxcsr fcw finishAddr m).mem a =
          (bthread_make_fcontext sp fn mxcsr fcw finishAddr m).mem a) := by
  refine ⟨make_ctx_eq sp fn mxcsr fcw finishAddr m hsp hlo, ?_, ?_, ?_, ?_, ?_, ?_⟩
  · rw [make_ctx_eq sp fn mxcsr fcw finishAddr m hsp hlo]; omega
  · rw [make_ctx_eq sp fn mxcsr fcw finishAddr m hsp hlo]; omega
  · rw [make_mem_eq sp fn mxcsr fcw finishAddr m hsp hlo]
    rw [if_neg (by omega), if_neg (by omega), if_neg (by omega), if_pos rfl]
  · rw [make_mem_eq sp fn mxcsr fcw finishAddr m hsp hlo]
    rw [if_pos rfl]
  · intro a ha1 ha2 ha3 ha4
    rw [make_mem_eq sp fn mxcsr fcw finishAddr m hsp hlo]
    rw [if_neg ha4, if_neg ha2, if_neg ha1, if_neg ha3]
  · intro fn2
    refine ⟨?_, ?_⟩
    · rw [make_ctx_eq sp fn mxcsr fcw finishAddr m hsp hlo,
        make_ctx_eq sp fn2 mxcsr fcw finishAddr m hsp hlo]
    · intro a ha
      rw [make_mem_eq sp fn mxcsr fcw finishAddr m hsp hlo,
        make_mem_eq sp fn2 mxcsr fcw finishAddr m hsp hlo]
      rw [if_neg ha, if_neg ha]

/-- C9 amended-claim witness: at `stack_top = 160` with entry address 777
and trampoline address 888, the frame is at 88 (≡ 8 mod 16, below 160),
the resume target 777 sits at offset 0x38 and the trampoline address 888
at offset 0x40. -/
theorem make_fcontext_spec_witness :
    (bthread_make_fcontext 160 777 1 2 888 (fun _ => 0)).ctx = 88 ∧
    (bthread_make_fcontext 160 777 1 2 888 (fun _ => 0)).ctx % 16 = 8 ∧
    (bthread_make_fcontext 160 777 1 2 888 (fun _ => 0)).ctx < 160 ∧
    (bthread_make_fcontext 160 777 1 2 888 (fun _ => 0)).mem (88 + 0x38) = 777 ∧
    (bthread_make_fcontext 160 777 1 2 888 (fun _ => 0)).mem (88 + 0x40) = 888 := by
  have h := make_fcontext_spec 160 777 1 2 888 (fun _ => 0)
    (by decide) (by decide)
  have he : (160 : Nat) - 160 % 16 - 0x48 = 88 := by decide
  rw [he] at h
  exact ⟨h.1, h.2.1, h.2.2.1, h.2.2.2.1, h.2.2.2.2.1⟩

/-- C2: for a context built by `bthread_make_fcontext` and first switched
into by `bthread_jump_fcontext`, the entry function starts with the
`finish` trampoline's address as the word at its stack pointer, so a
normal return transfers control to the trampoline; the trampoline always
terminates the process via `_exit(0)` and never falls through into caller
code. -/
theorem entry_return_hits_trampoline (sp fn mxcsr fcw finishAddr : Nat)
    (m : Mem) (rsp0 : Nat) (r : X64Save) (ofc v : Nat) (p : Bool)
    (hsp : sp < 2 ^ 64) (hlo : 0x48 + 64 ≤ sp - sp % 16)
    (h0 : 64 ≤ rsp0) (h1 : rsp0 < 2 ^ 64) (h2 : ofc < 2 ^ 64)
    (hofc : ofc ≠ (sp - sp % 16 - 0x48) + 0x40)
    (hsep : (sp - sp % 16 - 0x48) + 0x40 < rsp0 - 56 ∨
      rsp0 ≤ (sp - sp % 16 - 0x48) + 0x40) :
    (bthread_jump_fcontext rsp0 r ofc
        (bthread_make_fcontext sp fn mxcsr fcw finishAddr m).ctx v p
        (bthread_make_fcontext sp fn mxcsr fcw finishAddr m).mem).rsp =
      (sp - sp % 16 - 0x48) + 0x40 ∧
    normalReturnTarget
        (bthread_jump_fcontext rsp0 r ofc
          (bthread_make_fcontext sp fn mxcsr fcw finishAddr m).ctx v p
          (bthread_make_fcontext sp fn mxcsr fcw finishAddr m).mem).rsp
        (bthread_jump_fcontext rsp0 r ofc
          (bthread_make_fcontext sp fn mxcsr fcw finishAddr m).ctx v p
          (bthread_make_fcontext sp fn mxcsr fcw finishAddr m).mem).mem =
      finishAddr ∧
    (∀ x, finish x = ControlOutcome.procExit 0) ∧
    (∀ x t, finish x ≠ ControlOutcome.fallsThrough t) := by
  have hc := make_ctx_eq sp fn mxcsr fcw finishAddr m hsp (by omega)
  rw [hc]
  obtain ⟨-, -, -, hrsp, htgt⟩ := jump_outputs rsp0 r ofc
    (sp - sp % 16 - 0x48) v p
    (bthread_make_fcontext sp fn mxcsr fcw finishAddr m).mem
    h0 h1 (by omega)
  refine ⟨by rw [hrsp], ?_, fun x => rfl, fun x t => by simp [finish]⟩
  rw [hrsp]
  unfold normalReturnTarget
  have hb : sp - sp % 16 - 0x48 + 64 = (sp - sp % 16 - 0x48) + 0x40 := by omega
  rw [jump_mem_untouched rsp0 r ofc (sp - sp % 16 - 0x48) v p
    (bthread_make_fcontext sp fn mxcsr fcw finishAddr m).mem
    (sp - sp % 16 - 0x48 + 64) h0 h1 h2 (by omega) (by omega)]
  rw [make_mem_eq sp fn mxcsr fcw finishAddr m hsp (by omega)]
  rw [if_pos (by omega)]

/-- C2 witness: with stack top 160, entry address 777, trampoline address
888 and a first switch from stack 1024, the resumed entry function sees
stack pointer 152 whose top word is 888 (the trampoline), and the
trampoline exits the process with status 0. -/
theorem entry_return_hits_trampoline_witness :
    (bthread_jump_fcontext 1024 ⟨0, 0, 0, 0, 0, 0, 0, 0⟩ 2048
        (bthread_make_fcontext 160 777 1 2 888 (fun _ => 0)).ctx 5 false
        (bthread_make_fcontext 160 777 1 2 888 (fun _ => 0)).mem).rsp = 152 ∧
    normalReturnTarget
        (bthread_jump_fcontext 1024 ⟨0, 0, 0, 0, 0, 0, 0, 0⟩ 2048
          (bthread_make_fcontext 160 777 1 2 888 (fun _ => 0)).ctx 5 false
          (bthread_make_fcontext 160 777 1 2 888 (fun _ => 0)).mem).rsp
        (bthread_jump_fcontext 1024 ⟨0, 0, 0, 0, 0, 0, 0, 0⟩ 2048
          (bthread_make_fcontext 160 777 1 2 888 (fun _ => 0)).ctx 5 false
          (bthread_make_fcontext 160 777 1 2 888 (fun _ => 0)).mem).mem = 888 ∧
    finish 0 = ControlOutcome.procExit 0 := by
  have h := entry_return_hits_trampoline 160 777 1 2 888 (fun _ => 0)
    1024 ⟨0, 0, 0, 0, 0, 0, 0, 0⟩ 2048 5 false
    (by decide) (by decide) (by decide) (by decide) (by decide)
    (by decide) (Or.inl (by decide))
  have he : (160 : Nat) - 160 % 16 - 0x48 + 0x40 = 152 := by decide
  rw [he] at h
  exact ⟨h.1, h.2.1, h.2.2.1 0⟩

/-- C1: (a) a context created with entry function `F` and first switched
into with value `V0` enters `F` with `V0` as its argument (and as the
would-be return value register); (b) each later switch into a context
suspended at a `bthread_jump_fcontext` call site resumes that call site —
control transfers to the call's return address, the stack is unwound past
it — with the value the switcher passed delivered as the call's return
value. -/
theorem jump_fcontext_value_delivery
    (sp fn mxcsr fcw finishAddr : Nat) (m : Mem)
    (rsp0 : Nat) (r : X64Save) (ofc v0 : Nat) (p : Bool)
    (hsp : sp < 2 ^ 64) (hlo : 0x48 + 64 ≤ sp - sp % 16)
    (h0 : 64 ≤ rsp0) (h1 : rsp0 < 2 ^ 64) (h2 : ofc < 2 ^ 64)
    (hofc : ofc ≠ (sp - sp % 16 - 0x48) + 0x38)
    (hsep : (sp - sp % 16 - 0x48) + 0x38 < rsp0 - 56 ∨
      rsp0 ≤ (sp - sp % 16 - 0x48) + 0x38)
    (mb : Mem) (rb : X64Save) (rsp0b ofc1 nfc1 v1 : Nat) (p1 : Bool)
    (rc : X64Save) (rsp0c ofc2 v2 : Nat) (p2 : Bool)
    (hb0 : 64 ≤ rsp0b) (hb1 : rsp0b + 8 < 2 ^ 64)
    (hb2 : ofc1 < 2 ^ 64) (hb3 : ofc1 ≠ rsp0b)
    (hc0 : 64 ≤ rsp0c) (hc1 : rsp0c < 2 ^ 64)
    (hc2 : ofc2 < 2 ^ 64) (hc3 : ofc2 ≠ rsp0b)
    (hcsep : rsp0b < rsp0c - 56 ∨ rsp0c ≤ rsp0b) :
    ((bthread_jump_fcontext rsp0 r ofc
        (bthread_make_fcontext sp fn mxcsr fcw finishAddr m).ctx v0 p
        (bthread_make_fcontext sp fn mxcsr fcw finishAddr m).mem).target = fn ∧
     (bthread_jump_fcontext rsp0 r ofc
        (bthread_make_fcontext sp fn mxcsr fcw finishAddr m).ctx v0 p
        (bthread_make_fcontext sp fn mxcsr fcw finishAddr m).mem).arg = v0 ∧
     (bthread_jump_fcontext rsp0 r ofc
        (bthread_make_fcontext sp fn mxcsr fcw finishAddr m).ctx v0 p
        (bthread_make_fcontext sp fn mxcsr fcw finishAddr m).mem).ret = v0) ∧
    ((bthread_jump_fcontext rsp0c rc ofc2
        (bthread_jump_fcontext rsp0b rb ofc1 nfc1 v1 p1 mb).savedCtx v2 p2
        (bthread_jump_fcontext rsp0b rb ofc1 nfc1 v1 p1 mb).mem).target =
       mb rsp0b ∧
     (bthread_jump_fcontext rsp0c rc ofc2
        (bthread_jump_fcontext rsp0b rb ofc1 nfc1 v1 p1 mb).savedCtx v2 p2
        (bthread_jump_fcontext rsp0b rb ofc1 nfc1 v1 p1 mb).mem).ret = v2 ∧
     (bthread_jump_fcontext rsp0c rc ofc2
        (bthread_jump_fcontext rsp0b rb ofc1 nfc1 v1 p1 mb).savedCtx v2 p2
        (bthread_jump_fcontext rsp0b rb ofc1 nfc1 v1 p1 mb).mem).arg = v2 ∧
     (bthread_jump_fcontext rsp0c rc ofc2
        (bthread_jump_fcontext rsp0b rb ofc1 nfc1 v1 p1 mb).savedCtx v2 p2
        (bthread_jump_fcontext rsp0b rb ofc1 nfc1 v1 p1 mb).mem).rsp =
       rsp0b + 8) := by
  constructor
  · have hc := make_ctx_eq sp fn mxcsr fcw finishAddr m hsp (by omega)
    rw [hc]
    obtain ⟨-, harg, hret, -, htgt⟩ := jump_outputs rsp0 r ofc
      (sp - sp % 16 - 0x48) v0 p
      (bthread_make_fcontext sp fn mxcsr fcw finishAddr m).mem
      h0 h1 (by omega)
    refine ⟨?_, harg, hret⟩
    rw [htgt]
    rw [jump_mem_untouched rsp0 r ofc (sp - sp % 16 - 0x48) v0 p
      (bthread_make_fcontext sp fn mxcsr fcw finishAddr m).mem
      (sp - sp % 16 - 0x48 + 56) h0 h1 h2 (by omega) (by omega)]
    rw [make_mem_eq sp fn mxcsr fcw finishAddr m hsp (by omega)]
    rw [if_neg (by omega), if_neg (by omega), if_neg (by omega),
      if_pos (by omega)]
  · have hs1 : (bthread_jump_fcontext rsp0b rb ofc1 nfc1 v1 p1 mb).savedCtx =
        rsp0b - 56 := by
      unfold bthread_jump_fcontext
      exact sub64_small (by omega) (by omega)
    rw [hs1]
    obtain ⟨-, harg, hret, hrsp, htgt⟩ := jump_outputs rsp0c rc ofc2
      (rsp0b - 56) v2 p2
      (bthread_jump_fcontext rsp0b rb ofc1 nfc1 v1 p1 mb).mem
      hc0 hc1 (by omega)
    have hb : rsp0b - 56 + 56 = rsp0b := by omega
    refine ⟨?_, hret, harg, by rw [hrsp]; omega⟩
    rw [htgt, hb]
    rw [jump_mem_untouched rsp0c rc ofc2 (rsp0b - 56) v2 p2
      (bthread_jump_fcontext rsp0b rb ofc1 nfc1 v1 p1 mb).mem
      rsp0b hc0 hc1 hc2 (Ne.symm hc3) hcsep]
    rw [jump_mem_untouched rsp0b rb ofc1 nfc1 v1 p1 mb
      rsp0b hb0 (by omega) hb2 (Ne.symm hb3) (Or.inr (le_refl rsp0b))]

/-- C1 witness: a fresh context over stack top 160 with entry 777 first
switched into with value 42 enters 777 with argument 42; a context
suspended at a call site on stack 512 whose return address is 999 and
later switched into with value 43 resumes at 999 with return value 43 and
stack unwound to 520. -/
theorem jump_fcontext_value_delivery_witness :
    ((bthread_jump_fcontext 1024 ⟨0, 0, 0, 0, 0, 0, 0, 0⟩ 2048
        (bthread_make_fcontext 160 777 1 2 888 (fun _ => 0)).ctx 42 false
        (bthread_make_fcontext 160 777 1 2 888 (fun _ => 0)).mem).target = 777 ∧
     (bthread_jump_fcontext 1024 ⟨0, 0, 0, 0, 0, 0, 0, 0⟩ 2048
        (bthread_make_fcontext 160 777 1 2 888 (fun _ => 0)).ctx 42 false
        (bthread_make_fcontext 160 777 1 2 888 (fun _ => 0)).mem).arg = 42) ∧
    ((bthread_jump_fcontext 4096 ⟨0, 0, 0, 0, 0, 0, 0, 0⟩ 3100
        (bthread_jump_fcontext 512 ⟨0, 0, 0, 0, 0, 0, 0, 0⟩ 3000 2000 41 true
          (fun a => if a = 512 then 999 else 0)).savedCtx 43 true
        (bthread_jump_fcontext 512 ⟨0, 0, 0, 0, 0, 0, 0, 0⟩ 3000 2000 41 true
          (fun a => if a = 512 then 999 else 0)).mem).target = 999 ∧
     (bthread_jump_fcontext 4096 ⟨0, 0, 0, 0, 0, 0, 0, 0⟩ 3100
        (bthread_jump_fcontext 512 ⟨0, 0, 0, 0, 0, 0, 0, 0⟩ 3000 2000 41 true
          (fun a => if a = 512 then 999 else 0)).savedCtx 43 true
        (bthread_jump_fcontext 512 ⟨0, 0, 0, 0, 0, 0, 0, 0⟩ 3000 2000 41 true
          (fun a => if a = 512 then 999 else 0)).mem).ret = 43 ∧
     (bthread_jump_fcontext 4096 ⟨0, 0, 0, 0, 0, 0, 0, 0⟩ 3100
        (bthread_jump_fcontext 512 ⟨0, 0, 0, 0, 0, 0, 0, 0⟩ 3000 2000 41 true
          (fun a => if a = 512 then 999 else 0)).savedCtx 43 true
        (bthread_jump_fcontext 512 ⟨0, 0, 0, 0, 0, 0, 0, 0⟩ 3000 2000 41 true
          (fun a => if a = 512 then 999 else 0)).mem).rsp = 520) := by
  have h := jump_fcontext_value_delivery 160 777 1 2 888 (fun _ => 0)
    1024 ⟨0, 0, 0, 0, 0, 0, 0, 0⟩ 2048 42 false
    (by decide) (by decide) (by decide) (by decide) (by decide)
    (by decide) (Or.inl (by decide))
    (fun a => if a = 512 then 999 else 0) ⟨0, 0, 0, 0, 0, 0, 0, 0⟩
    512 3000 2000 41 true ⟨0, 0, 0, 0, 0, 0, 0, 0⟩ 4096 3100 43 true
    (by decide) (by decide) (by decide) (by decide) (by decide)
    (by decide) (by decide) (by decide) (Or.inl (by decide))
  exact ⟨⟨h.1.1, h.1.2.1⟩, ⟨h.2.1, h.2.2.1, h.2.2.2.2⟩⟩

/-- C5 counterexample: with `preserve_fpu = false` the linux x86_64
switch leaves the floating-point save slot of the old stack untouched
(value 0), but the linux arm64 switch — whose `preserve_fpu` test is
commented out in the source — still writes the callee-saved FP register
d8 (here 7) into the save area: floating-point state is saved even though
`preserve_fpu` is not set, so the save happens not iff the flag is set
and the observable contract differs between the two implemented
architectures. -/
theorem preserve_fpu_counterexample :
    (bthread_jump_fcontext 1024 ⟨0, 0, 0, 0, 0, 0, 7, 9⟩ 2048 4096 5 false
        (fun _ => 0)).mem 968 = 0 ∧
    (bthread_jump_fcontext_arm64 1024
        ⟨7, 0, 0, 0, 0, 0, 0, 0, 0, 0, 0, 0, 0, 0, 0, 0, 0, 0, 0, 0⟩
        2048 4096 5 false (fun _ => 0)).mem 848 = 7 ∧
    (7 : Nat) ≠ 0 := by
  refine ⟨by decide, by decide, by decide⟩

/-- C5 (amended): on linux x86_64 the switch saves and restores the
floating-point control state (`mxcsr`/`fcw`) if and only if
`preserve_fpu` is set; on linux arm64 the switch ignores `preserve_fpu`
entirely (its outcome is identical for both flag values) and always
saves the callee-saved FP registers d8-d15 — so the FP-preservation
contract is conditional on x86_64 but unconditional on arm64. -/
theorem preserve_fpu_contract (rsp0 : Nat) (r : X64Save) (ofc nfc vp : Nat)
    (m : Mem) (sp0 : Nat) (ra : A64Save) (x0 x1 x2 : Nat) (m2 : Mem)
    (h0 : 64 ≤ rsp0) (h1 : rsp0 < 2 ^ 64) (h2 : ofc < 2 ^ 64)
    (hn : nfc < 2 ^ 64)
    (ho1 : ofc ≠ rsp0 - 56) (ho2 : ofc ≠ rsp0 - 52)
    (ha0 : 0xb0 ≤ sp0) (ha1 : sp0 < 2 ^ 64) (ha2 : x0 < 2 ^ 64)
    (hax : x0 ≠ sp0 - 0xb0) :
    ((bthread_jump_fcontext rsp0 r ofc nfc vp true m).mem (rsp0 - 56) =
        r.mxcsr ∧
     (bthread_jump_fcontext rsp0 r ofc nfc vp true m).mem (rsp0 - 52) =
        r.fcw ∧
     (bthread_jump_fcontext rsp0 r ofc nfc vp true m).regs.mxcsr =
        (bthread_jump_fcontext rsp0 r ofc nfc vp true m).mem nfc ∧
     (bthread_jump_fcontext rsp0 r ofc nfc vp false m).mem (rsp0 - 56) =
        m (rsp0 - 56) ∧
     (bthread_jump_fcontext rsp0 r ofc nfc vp false m).mem (rsp0 - 52) =
        m (rsp0 - 52) ∧
     (bthread_jump_fcontext rsp0 r ofc nfc vp false m).regs.mxcsr =
        r.mxcsr ∧
     (bthread_jump_fcontext rsp0 r ofc nfc vp false m).regs.fcw = r.fcw) ∧
    ((∀ w3 w3' : Bool,
        bthread_jump_fcontext_arm64 sp0 ra x0 x1 x2 w3 m2 =
          bthread_jump_fcontext_arm64 sp0 ra x0 x1 x2 w3' m2) ∧
     ∀ w3 : Bool,
       (bthread_jump_fcontext_arm64 sp0 ra x0 x1 x2 w3 m2).mem
          (sp0 - 0xb0) = ra.d8) := by
  constructor
  · obtain ⟨hmt, hft⟩ := jump_mem_fpu_slot rsp0 r ofc nfc vp true m
      h0 h1 h2 ho1 ho2
    obtain ⟨hmf, hff⟩ := jump_mem_fpu_slot rsp0 r ofc nfc vp false m
      h0 h1 h2 ho1 ho2
    obtain ⟨hrt, -⟩ := jump_regs_fpu rsp0 r ofc nfc vp true m hn
    obtain ⟨hrf, hrf2⟩ := jump_regs_fpu rsp0 r ofc nfc vp false m hn
    simp only [if_true, Bool.false_eq_true, if_false] at hmt hft hmf hff hrt hrf hrf2
    exact ⟨hmt, hft, hrt, hmf, hff, hrf, hrf2⟩
  · refine ⟨fun w3 w3' => rfl, ?_⟩
    intro w3
    unfold bthread_jump_fcontext_arm64
    rw [sub64_small (show 0xb0 ≤ sp0 by omega) ha1]
    dsimp only
    rw [Mem.write_other _ _ (show sp0 - 0xb0 ≠ wrap64 x0 by
        rw [wrap64_small ha2]; exact Ne.symm hax),
      Mem.write_other _ _ (show sp0 - 0xb0 ≠ wrap64 (sp0 - 0xb0 + 0xa0) by
        rw [wrap64_small (x := sp0 - 0xb0 + 0xa0) (by omega)]; omega),
      Mem.write_other _ _ (show sp0 - 0xb0 ≠ wrap64 (sp0 - 0xb0 + 0x98) by
        rw [wrap64_small (x := sp0 - 0xb0 + 0x98) (by omega)]; omega),
      Mem.write_other _ _ (show sp0 - 0xb0 ≠ wrap64 (sp0 - 0xb0 + 0x90) by
        rw [wrap64_small (x := sp0 - 0xb0 + 0x90) (by omega)]; omega),
      Mem.write_other _ _ (show sp0 - 0xb0 ≠ wrap64 (sp0 - 0xb0 + 0x88) by
        rw [wrap64_small (x := sp0 - 0xb0 + 0x88) (by omega)]; omega),
      Mem.write_other _ _ (show sp0 - 0xb0 ≠ wrap64 (sp0 - 0xb0 + 0x80) by
        rw [wrap64_small (x := sp0 - 0xb0 + 0x80) (by omega)]; omega),
      Mem.write_other _ _ (show sp0 - 0xb0 ≠ wrap64 (sp0 - 0xb0 + 0x78) by
        rw [wrap64_small (x := sp0 - 0xb0 + 0x78) (by omega)]; omega),
      Mem.write_other _ _ (show sp0 - 0xb0 ≠ wrap64 (sp0 - 0xb0 + 0x70) by
        rw [wrap64_small (x := sp0 - 0xb0 + 0x70) (by omega)]; omega),
      Mem.write_other _ _ (show sp0 - 0xb0 ≠ wrap64 (sp0 - 0xb0 + 0x68) by
        rw [wrap64_small (x := sp0 - 0xb0 + 0x68) (by omega)]; omega),
      Mem.write_other _ _ (show sp0 - 0xb0 ≠ wrap64 (sp0 - 0xb0 + 0x60) by
        rw [wrap64_small (x := sp0 - 0xb0 + 0x60) (by omega)]; omega),
      Mem.write_other _ _ (show sp0 - 0xb0 ≠ wrap64 (sp0 - 0xb0 + 0x58) by
        rw [wrap64_small (x := sp0 - 0xb0 + 0x58) (by omega)]; omega),
      Mem.write_other _ _ (show sp0 - 0xb0 ≠ wrap64 (sp0 - 0xb0 + 0x50) by
        rw [wrap64_small (x := sp0 - 0xb0 + 0x50) (by omega)]; omega),
      Mem.write_other _ _ (show sp0 - 0xb0 ≠ wrap64 (sp0 - 0xb0 + 0x48) by
        rw [wrap64_small (x := sp0 - 0xb0 + 0x48) (by omega)]; omega),
      Mem.write_other _ _ (show sp0 - 0xb0 ≠ wrap64 (sp0 - 0xb0 + 0x40) by
        rw [wrap64_small (x := sp0 - 0xb0 + 0x40) (by omega)]; omega),
      Mem.write_other _ _ (show sp0 - 0xb0 ≠ wrap64 (sp0 - 0xb0 + 0x38) by
        rw [wrap64_small (x := sp0 - 0xb0 + 0x38) (by omega)]; omega),
      Mem.write_other _ _ (show sp0 - 0xb0 ≠ wrap64 (sp0 - 0xb0 + 0x30) by
        rw [wrap64_small (x := sp0 - 0xb0 + 0x30) (by omega)]; omega),
      Mem.write_other _ _ (show sp0 - 0xb0 ≠ wrap64 (sp0 - 0xb0 + 0x28) by
        rw [wrap64_small (x := sp0 - 0xb0 + 0x28) (by omega)]; omega),
      Mem.write_other _ _ (show sp0 - 0xb0 ≠ wrap64 (sp0 - 0xb0 + 0x20) by
        rw [wrap64_small (x := sp0 - 0xb0 + 0x20) (by omega)]; omega),
      Mem.write_other _ _ (show sp0 - 0xb0 ≠ wrap64 (sp0 - 0xb0 + 0x18) by
        rw [wrap64_small (x := sp0 - 0xb0 + 0x18) (by omega)]; omega),
      Mem.write_other _ _ (show sp0 - 0xb0 ≠ wrap64 (sp0 - 0xb0 + 0x10) by
        rw [wrap64_small (x := sp0 - 0xb0 + 0x10) (by omega)]; omega),
      Mem.write_other _ _ (show sp0 - 0xb0 ≠ wrap64 (sp0 - 0xb0 + 0x8) by
        rw [wrap64_small (x := sp0 - 0xb0 + 0x8) (by omega)]; omega),
      Mem.write_self]

/-- C5 amended-claim witness: concrete switches at stack 1024 — on
x86_64, with the flag set the control words 7 and 9 land in the save
slots 968/972, with the flag clear those slots keep their old values 0;
on arm64 d8 = 7 is saved at 848 with the flag clear. -/
theorem preserve_fpu_contract_witness :
    (bthread_jump_fcontext 1024 ⟨0, 0, 0, 0, 0, 0, 7, 9⟩ 2048 4096 5 true
        (fun _ => 0)).mem (1024 - 56) = 7 ∧
    (bthread_jump_fcontext 1024 ⟨0, 0, 0, 0, 0, 0, 7, 9⟩ 2048 4096 5 true
        (fun _ => 0)).mem (1024 - 52) = 9 ∧
    (bthread_jump_fcontext 1024 ⟨0, 0, 0, 0, 0, 0, 7, 9⟩ 2048 4096 5 false
        (fun _ => 0)).mem (1024 - 56) = 0 ∧
    (bthread_jump_fcontext_arm64 1024
        ⟨7, 0, 0, 0, 0, 0, 0, 0, 0, 0, 0, 0, 0, 0, 0, 0, 0, 0, 0, 0⟩
        2048 4096 5 false (fun _ => 0)).mem (1024 - 0xb0) = 7 := by
  have h := preserve_fpu_contract 1024 ⟨0, 0, 0, 0, 0, 0, 7, 9⟩ 2048 4096 5
    (fun _ => 0) 1024
    ⟨7, 0, 0, 0, 0, 0, 0, 0, 0, 0, 0, 0, 0, 0, 0, 0, 0, 0, 0, 0⟩
    2048 4096 5 (fun _ => 0)
    (by decide) (by decide) (by decide) (by decide) (by decide) (by decide)
    (by decide) (by decide) (by decide) (by decide)
  exact ⟨h.1.1, h.1.2.1, h.1.2.2.2.1, h.2.2 false⟩

/-- C10: on every failure path of `allocate_stack_storage` (malloc failure,
mmap failure, residual-guard or mprotect failure) the function returns -1
and writes no field of the caller-supplied `StackStorage`: the output
struct is exactly as the caller passed it in. -/
theorem allocate_stack_storage_failure_pure (k : Nat) (env : OsEnv)
    (s : StackStorage) (count : Int) (si gi : Int) :
    (allocate_stack_storage k env s count si gi).ret = 0 ∨
    ((allocate_stack_storage k env s count si gi).ret = -1 ∧
     (allocate_stack_storage k env s count si gi).s = s) := by
  unfold allocate_stack_storage
  by_cases h1 : gi ≤ 0
  · by_cases h2 : env.mallocRet = 0 <;> simp [h1, h2]
  · cases h3 : env.mmapRet with
    | none => simp [h1, h3]
    | some mem =>
      simp only [h1, h3, if_false]
      split_ifs <;> simp

/-- C8: `deallocate_stack_storage` treats a handle whose `bottom` is not
larger than `stacksize + guardsize` as a no-op (frees nothing, unmaps
nothing, counter unchanged); otherwise it decrements the live-stack
counter and releases the base address `bottom - (stacksize + guardsize)`
via `free` when `guardsize ≤ 0` and via `munmap` when `guardsize > 0`. -/
theorem deallocate_stack_storage_spec (env : OsEnv) (s : StackStorage)
    (count : Int) :
    (wrapPtr s.bottom ≤ wrapPtr (wrap32 (s.stacksize + s.guardsize)) →
      (deallocate_stack_storage env s count).count = count ∧
      ∀ a ∈ (deallocate_stack_storage env s count).trace,
        isRelease a = false) ∧
    (wrapPtr (wrap32 (s.stacksize + s.guardsize)) < wrapPtr s.bottom →
      (deallocate_stack_storage env s count).count = count - 1 ∧
      (s.guardsize ≤ 0 →
        OsAction.freeCall
            (ptrAdd s.bottom (-(wrap32 (s.stacksize + s.guardsize)))) ∈
          (deallocate_stack_storage env s count).trace) ∧
      (0 < s.guardsize →
        OsAction.munmapCall
            (ptrAdd s.bottom (-(wrap32 (s.stacksize + s.guardsize))))
            (wrap32 (s.stacksize + s.guardsize)) ∈
          (deallocate_stack_storage env s count).trace)) := by
  unfold deallocate_stack_storage
  constructor
  · intro hdeg
    rw [if_pos hdeg]
    refine ⟨rfl, ?_⟩
    intro a ha
    by_cases hv : env.onValgrind <;> simp [hv] at ha
    · rw [ha]; rfl
  · intro hval
    rw [if_neg (by omega)]
    by_cases hg : s.guardsize ≤ 0
    · rw [if_pos hg]
      refine ⟨rfl, fun _ => ?_, fun h0 => absurd h0 (by omega)⟩
      simp
    · rw [if_neg hg]
      refine ⟨rfl, fun h0 => absurd h0 (by omega), fun _ => ?_⟩
      simp

/-- C8 witness: a degenerate (zero-initialized) handle is absorbed as a
no-op, and a valid unguarded handle is freed with the counter
decremented. -/
theorem deallocate_stack_storage_spec_witness :
    ((deallocate_stack_storage ⟨0, none, true, false, 0⟩ ⟨0, 0, 0, 0⟩ 5).count = 5 ∧
      ∀ a ∈ (deallocate_stack_storage ⟨0, none, true, false, 0⟩ ⟨0, 0, 0, 0⟩ 5).trace,
        isRelease a = false) ∧
    ((deallocate_stack_storage ⟨0, none, true, false, 0⟩ ⟨12288, 8192, 0, 0⟩ 5).count = 4 ∧
      OsAction.freeCall 4096 ∈
        (deallocate_stack_storage ⟨0, none, true, false, 0⟩ ⟨12288, 8192, 0, 0⟩ 5).trace) := by
  constructor
  · exact (deallocate_stack_storage_spec ⟨0, none, true, false, 0⟩ ⟨0, 0, 0, 0⟩ 5).1
      (by decide)
  · refine ⟨((deallocate_stack_storage_spec ⟨0, none, true, false, 0⟩
      ⟨12288, 8192, 0, 0⟩ 5).2 (by decide)).1, ?_⟩
    have h := ((deallocate_stack_storage_spec ⟨0, none, true, false, 0⟩
      ⟨12288, 8192, 0, 0⟩ 5).2 (by decide)).2.1 (by decide)
    have he : ptrAdd (12288 : Int) (-(wrap32 (8192 + 0))) = 4096 := by decide
    rwa [he] at h

/-- C7: for `requested_guard_size ≤ 0`, `allocate_stack_storage` takes the
unguarded path: it performs a single heap allocation (`malloc`) of exactly
the rounded stack size, never invokes `mmap`/`mprotect`/`munmap`, and on
success records `guardsize = 0`, `stacksize` as the rounded size and
`bottom` as the allocation base plus `stacksize`. -/
theorem allocate_stack_storage_unguarded (k : Nat) (env : OsEnv)
    (s : StackStorage) (count : Int) (si gi : Int) (hG : gi ≤ 0) :
    (∀ a ∈ (allocate_stack_storage k env s count si gi).trace,
      isVmCall a = false) ∧
    (allocate_stack_storage k env s count si gi).trace.countP isMalloc = 1 ∧
    OsAction.mallocCall (alignPage k (max si (2 ^ k * 2))) env.mallocRet ∈
      (allocate_stack_storage k env s count si gi).trace ∧
    ((allocate_stack_storage k env s count si gi).ret = 0 →
      (allocate_stack_storage k env s count si gi).s.guardsize = 0 ∧
      (allocate_stack_storage k env s count si gi).s.stacksize =
        alignPage k (max si (2 ^ k * 2)) ∧
      (allocate_stack_storage k env s count si gi).s.bottom =
        ptrAdd env.mallocRet (alignPage k (max si (2 ^ k * 2)))) := by
  unfold allocate_stack_storage
  by_cases h2 : env.mallocRet = 0
  · simp [hG, h2, isVmCall, isMalloc, List.countP_cons, List.countP_nil]
  · by_cases hv : env.onValgrind <;>
      simp [hG, h2, hv, isVmCall, isMalloc, List.countP_cons, List.countP_nil]

/-- Pointer values in `[0, 2^64)` are fixed by `wrapPtr`. -/
theorem wrapPtr_small {x : Int} (h0 : 0 ≤ x) (h1 : x < 2 ^ 64) :
    wrapPtr x = x := Int.emod_eq_of_lt h0 h1

/-- C3: on the guarded path (`requested_guard_size > 0`) with a successful
`mmap`, if the residual `guardsize - offset` is non-positive or the
`mprotect` call fails, `allocate_stack_storage` unmaps the whole mapping
(same address, same total size as mapped), returns -1, leaves the
live-stack counter unchanged and writes no field of the result. -/
theorem allocate_stack_storage_guard_failure (k : Nat) (env : OsEnv)
    (s : StackStorage) (count : Int) (si gi : Int) (hG : 0 < gi)
    (mem : Int) (hm : env.mmapRet = some mem)
    (hfail :
      alignPage k (max gi (2 ^ k)) ≤
          wrap32 (wrapPtr (mem + ((2 : Int) ^ k - 1)) -
            wrapPtr (mem + ((2 : Int) ^ k - 1)) % 2 ^ k - mem) ∨
        env.mprotectOk = false) :
    (allocate_stack_storage k env s count si gi).ret = -1 ∧
    (allocate_stack_storage k env s count si gi).s = s ∧
    (allocate_stack_storage k env s count si gi).count = count ∧
    OsAction.mmapCall
        (wrap32 (alignPage k (max si (2 ^ k * 2)) + alignPage k (max gi (2 ^ k))))
        (some mem) ∈
      (allocate_stack_storage k env s count si gi).trace ∧
    OsAction.munmapCall mem
        (wrap32 (alignPage k (max si (2 ^ k * 2)) + alignPage k (max gi (2 ^ k)))) ∈
      (allocate_stack_storage k env s count si gi).trace := by
  have hg : ¬ gi ≤ 0 := not_le.mpr hG
  unfold allocate_stack_storage
  simp only [hg, if_false, hm]
  by_cases hoff : alignPage k (max gi (2 ^ k)) ≤
      wrap32 (wrapPtr (mem + ((2 : Int) ^ k - 1)) -
        wrapPtr (mem + ((2 : Int) ^ k - 1)) % 2 ^ k - mem)
  · simp [hoff]
  · have hprot : env.mprotectOk = false := by tauto
    simp [hoff, hprot]

/-- C3 witness: page size 4096, mmap succeeds at address 65536 and
mprotect fails: the whole 12288-byte mapping is unmapped, the call fails
and neither the struct nor the counter changes. -/
theorem allocate_stack_storage_guard_failure_witness :
    (allocate_stack_storage 12 ⟨0, some 65536, false, false, 0⟩
        ⟨0, 0, 0, 0⟩ 7 1 1).ret = -1 ∧
    (allocate_stack_storage 12 ⟨0, some 65536, false, false, 0⟩
        ⟨0, 0, 0, 0⟩ 7 1 1).s = ⟨0, 0, 0, 0⟩ ∧
    (allocate_stack_storage 12 ⟨0, some 65536, false, false, 0⟩
        ⟨0, 0, 0, 0⟩ 7 1 1).count = 7 ∧
    OsAction.mmapCall 12288 (some 65536) ∈
      (allocate_stack_storage 12 ⟨0, some 65536, false, false, 0⟩
        ⟨0, 0, 0, 0⟩ 7 1 1).trace ∧
    OsAction.munmapCall 65536 12288 ∈
      (allocate_stack_storage 12 ⟨0, some 65536, false, false, 0⟩
        ⟨0, 0, 0, 0⟩ 7 1 1).trace := by
  have h := allocate_stack_storage_guard_failure 12
    ⟨0, some 65536, false, false, 0⟩ ⟨0, 0, 0, 0⟩ 7 1 1 (by decide)
    65536 rfl (Or.inr rfl)
  have he : wrap32 (alignPage 12 (max (1 : Int) (2 ^ 12 * 2)) +
      alignPage 12 (max (1 : Int) (2 ^ 12))) = 12288 := by decide
  rwa [he] at h

/-- C4 counterexample: at `requested_size = INT_MAX = 2147483647` the page
rounding `(std::max(stacksize_in, MIN_STACKSIZE) + PAGESIZE_M1) &
~PAGESIZE_M1` overflows `int` and yields `INT_MIN`; if the subsequent
`malloc` nevertheless returns a non-null pointer the call reports success
with `stacksize = -2^31`, which is neither `≥ S` nor at least two pages,
refuting the claim for every requested size `S ≥ 1`. -/
theorem allocate_stack_storage_rounding_counterexample :
    (allocate_stack_storage 12 ⟨4096, none, true, false, 0⟩ ⟨0, 0, 0, 0⟩ 0
        2147483647 0).ret = 0 ∧
    (allocate_stack_storage 12 ⟨4096, none, true, false, 0⟩ ⟨0, 0, 0, 0⟩ 0
        2147483647 0).s.stacksize = -2147483648 ∧
    ¬ (2147483647 : Int) ≤
      (allocate_stack_storage 12 ⟨4096, none, true, false, 0⟩ ⟨0, 0, 0, 0⟩ 0
          2147483647 0).s.stacksize := by
  refine ⟨by decide, by decide, by decide⟩

/-- C4 (amended): for every requested size `S ≥ 1` whose page rounding
does not overflow `int` (`S + pagesize - 1 < 2^31`) and every guard size
`G`, a successful `allocate_stack_storage` sets `stacksize` to a multiple
of the page size that is at least `S` and at least two pages, and
`stacksize + guardsize` is a multiple of the page size. -/
theorem allocate_stack_storage_rounding (k : Nat) (env : OsEnv)
    (s : StackStorage) (count : Int) (si gi : Int)
    (hk : k ≤ 29) (hS : 1 ≤ si) (hov : si + 2 ^ k - 1 < 2 ^ 31)
    (hret : (allocate_stack_storage k env s count si gi).ret = 0) :
    ((2 ^ k : Int) ∣ (allocate_stack_storage k env s count si gi).s.stacksize) ∧
    si ≤ (allocate_stack_storage k env s count si gi).s.stacksize ∧
    2 ^ k * 2 ≤ (allocate_stack_storage k env s count si gi).s.stacksize ∧
    ((2 ^ k : Int) ∣
      ((allocate_stack_storage k env s count si gi).s.stacksize +
        (allocate_stack_storage k env s count si gi).s.guardsize)) := by
  have hkpow : (2 : Int) ^ k ≤ 2 ^ 29 := pow_le_pow_right (by norm_num) hk
  have hx0 : 0 ≤ max si ((2 : Int) ^ k * 2) := le_max_of_le_left (by omega)
  have hx2 : max si ((2 : Int) ^ k * 2) + 2 ^ k - 1 < 2 ^ 31 := by
    rcases max_cases si ((2 : Int) ^ k * 2) with ⟨he, _⟩ | ⟨he, _⟩ <;>
      rw [he] <;> omega
  obtain ⟨hlo, _, hdvd⟩ := alignPage_spec hx0 hx2
  have hge : si ≤ alignPage k (max si (2 ^ k * 2)) :=
    le_trans (le_max_left _ _) hlo
  have hge2 : (2 : Int) ^ k * 2 ≤ alignPage k (max si (2 ^ k * 2)) :=
    le_trans (le_max_right _ _) hlo
  have hgd : (2 ^ k : Int) ∣ alignPage k (max gi (2 ^ k)) :=
    alignPage_dvd (by omega) _
  unfold allocate_stack_storage at hret ⊢
  by_cases hg : gi ≤ 0
  · by_cases h2 : env.mallocRet = 0
    · simp [hg, h2] at hret
    · simp only [hg, if_true, h2, if_false]
      exact ⟨hdvd, hge, hge2, by simpa using hdvd⟩
  · cases hm : env.mmapRet with
    | none => simp [hg, hm] at hret
    | some mem =>
      simp only [hg, if_false, hm] at hret ⊢
      split_ifs at hret ⊢ <;>
        first
          | exact ⟨hdvd, hge, hge2, dvd_add hdvd hgd⟩
          | simp at hret

/-- C4 amended-claim witness: page size 4096, S = 1, G = 0, malloc
succeeding at 40960: the successful allocation has stacksize 8192, a
multiple of 4096, at least 1 and at least two pages. -/
theorem allocate_stack_storage_rounding_witness :
    ((2 ^ 12 : Int) ∣ (allocate_stack_storage 12 ⟨40960, none, true, false, 0⟩
        ⟨0, 0, 0, 0⟩ 0 1 0).s.stacksize) ∧
    (1 : Int) ≤ (allocate_stack_storage 12 ⟨40960, none, true, false, 0⟩
        ⟨0, 0, 0, 0⟩ 0 1 0).s.stacksize ∧
    2 ^ 12 * 2 ≤ (allocate_stack_storage 12 ⟨40960, none, true, false, 0⟩
        ⟨0, 0, 0, 0⟩ 0 1 0).s.stacksize ∧
    ((2 ^ 12 : Int) ∣
      ((allocate_stack_storage 12 ⟨40960, none, true, false, 0⟩
          ⟨0, 0, 0, 0⟩ 0 1 0).s.stacksize +
        (allocate_stack_storage 12 ⟨40960, none, true, false, 0⟩
          ⟨0, 0, 0, 0⟩ 0 1 0).s.guardsize)) :=
  allocate_stack_storage_rounding 12 ⟨40960, none, true, false, 0⟩
    ⟨0, 0, 0, 0⟩ 0 1 0 (by decide) (by decide) (by decide) (by decide)

/-- The allocator's return value / counter pairing: success returns 0 and
bumps the counter, failure returns -1 and leaves it alone. -/
theorem allocate_count_characterization (k : Nat) (env : OsEnv)
    (s : StackStorage) (count : Int) (si gi : Int) :
    ((allocate_stack_storage k env s count si gi).ret = 0 ∧
     (allocate_stack_storage k env s count si gi).count = count + 1) ∨
    ((allocate_stack_storage k env s count si gi).ret = -1 ∧
     (allocate_stack_storage k env s count si gi).count = count) := by
  unfold allocate_stack_storage
  by_cases hg : gi ≤ 0
  · by_cases h2 : env.mallocRet = 0 <;> simp [hg, h2]
  · cases hm : env.mmapRet with
    | none => simp [hg, hm]
    | some mem =>
      simp only [hg, if_false, hm]
      split_ifs <;> simp

/-- C6: `allocate_stack_storage` increments the live-stack counter by
exactly one on success and leaves it unchanged on every failure path;
`deallocate_stack_storage` of a valid storage decrements it by exactly
one; and for a well-formed OS environment (positive, bounded mapping
addresses) and non-overflowing sizes, the composition
`deallocate(allocate(S, G))` restores the counter to its pre-call
value. -/
theorem stack_count_balance (k : Nat) (env env2 : OsEnv)
    (s : StackStorage) (count : Int) (si gi : Int) :
    ((allocate_stack_storage k env s count si gi).ret = 0 →
      (allocate_stack_storage k env s count si gi).count = count + 1) ∧
    ((allocate_stack_storage k env s count si gi).ret ≠ 0 →
      (allocate_stack_storage k env s count si gi).count = count) ∧
    (∀ s2 c2,
      wrapPtr (wrap32 (s2.stacksize + s2.guardsize)) < wrapPtr s2.bottom →
      (deallocate_stack_storage env2 s2 c2).count = c2 - 1) ∧
    (1 ≤ k → k ≤ 16 → 1 ≤ si → si ≤ 2 ^ 28 → gi ≤ 2 ^ 28 →
     (env.mallocRet = 0 ∨ (0 < env.mallocRet ∧ env.mallocRet ≤ 2 ^ 62)) →
     (∀ a, env.mmapRet = some a → 0 < a ∧ a ≤ 2 ^ 62) →
     (allocate_stack_storage k env s count si gi).ret = 0 →
      (deallocate_stack_storage env2
          (allocate_stack_storage k env s count si gi).s
          (allocate_stack_storage k env s count si gi).count).count = count) := by
  refine ⟨?_, ?_, ?_, ?_⟩
  · intro hret
    rcases allocate_count_characterization k env s count si gi with h | h
    · exact h.2
    · rw [hret] at h; simp at h
  · intro hret
    rcases allocate_count_characterization k env s count si gi with h | h
    · exact absurd h.1 hret
    · exact h.2
  · intro s2 c2 hvalid
    unfold deallocate_stack_storage
    rw [if_neg (not_le.mpr hvalid)]
    split_ifs <;> rfl
  · intro hk1 hk16 hS1 hS2 hG2 hma hmm hret
    have hk2 : (2 : Int) ≤ 2 ^ k := by
      calc (2 : Int) = 2 ^ 1 := by norm_num
      _ ≤ 2 ^ k := pow_le_pow_right (by norm_num) hk1
    have hkpow : (2 : Int) ^ k ≤ 2 ^ 16 := pow_le_pow_right (by norm_num) hk16
    have hxle : max si ((2 : Int) ^ k * 2) ≤ 2 ^ 29 := by
      rcases max_cases si ((2 : Int) ^ k * 2) with ⟨he, _⟩ | ⟨he, _⟩ <;>
        rw [he] <;> omega
    have hxge : (2 : Int) ≤ max si ((2 : Int) ^ k * 2) :=
      le_trans (by omega) (le_max_right _ _)
    obtain ⟨hlo, hhi, -⟩ := alignPage_spec
      (k := k) (x := max si ((2 : Int) ^ k * 2)) (by omega) (by omega)
    set ss := alignPage k (max si ((2 : Int) ^ k * 2)) with hssdef
    have hss0 : 0 < ss := by omega
    have hssU : ss < 2 ^ 30 := by omega
    unfold allocate_stack_storage at hret ⊢
    by_cases hg : gi ≤ 0
    · by_cases h2 : env.mallocRet = 0
      · simp [hg, h2] at hret
      · simp only [hg, if_true, h2, if_false]
        obtain ⟨ha0, ha62⟩ := hma.resolve_left h2
        unfold deallocate_stack_storage
        dsimp only
        have e1 : wrap32 (ss + 0) = ss := by
          rw [add_zero]; exact wrap32_small (by omega) (by omega)
        have e2 : ptrAdd env.mallocRet ss = env.mallocRet + ss := by
          unfold ptrAdd; exact wrapPtr_small (by omega) (by omega)
        have e3 : wrapPtr ss = ss := wrapPtr_small (by omega) (by omega)
        have e4 : wrapPtr (env.mallocRet + ss) = env.mallocRet + ss :=
          wrapPtr_small (by omega) (by omega)
        rw [e1, e2, e3, e4, if_neg (by omega), if_pos (by omega)]
        dsimp only
        omega
    · cases hm : env.mmapRet with
      | none => simp [hg, hm] at hret
      | some mem =>
        obtain ⟨hm0, hm62⟩ := hmm mem hm
        have hyle : max gi ((2 : Int) ^ k) ≤ 2 ^ 28 := by
          rcases max_cases gi ((2 : Int) ^ k) with ⟨he, _⟩ | ⟨he, _⟩ <;>
            rw [he] <;> omega
        have hyge : (2 : Int) ^ k ≤ max gi ((2 : Int) ^ k) := le_max_right _ _
        obtain ⟨hlo2, hhi2, -⟩ := alignPage_spec
          (k := k) (x := max gi ((2 : Int) ^ k)) (by omega) (by omega)
        set gs := alignPage k (max gi ((2 : Int) ^ k)) with hgsdef
        have hgs0 : 0 < gs := by omega
        have hgsU : gs < 2 ^ 29 := by omega
        simp only [hg, if_false, hm] at hret ⊢
        have e1 : wrap32 (ss + gs) = ss + gs :=
          wrap32_small (by omega) (by omega)
        have e2 : ptrAdd mem (ss + gs) = mem + (ss + gs) := by
          unfold ptrAdd; exact wrapPtr_small (by omega) (by omega)
        have e3 : wrapPtr (ss + gs) = ss + gs := wrapPtr_small (by omega) (by omega)
        have e4 : wrapPtr (mem + (ss + gs)) = mem + (ss + gs) :=
          wrapPtr_small (by omega) (by omega)
        by_cases hoff : alignPage k (max gi ((2 : Int) ^ k)) ≤
            wrap32 (wrapPtr (mem + ((2 : Int) ^ k - 1)) -
              wrapPtr (mem + ((2 : Int) ^ k - 1)) % 2 ^ k - mem)
        · rw [if_pos hoff] at hret; simp at hret
        · rw [if_neg hoff] at hret ⊢
          by_cases hpo : env.mprotectOk
          · rw [if_neg (not_not_intro hpo)] at hret ⊢
            rw [← hssdef, ← hgsdef]
            unfold deallocate_stack_storage
            dsimp only
            rw [e1, e2, e3, e4, if_neg (by omega), if_neg (by omega)]
            dsimp only
            omega
          · rw [if_pos hpo] at hret
            simp at hret

/-- C6 witness: page size 4096, a guarded allocate at mmap address 65536
with S = 1, G = 1 increments the counter from 7 to 8, and deallocating
the resulting storage brings it back to 7. -/
theorem stack_count_balance_witness :
    ((allocate_stack_storage 12 ⟨0, some 65536, true, false, 0⟩
        ⟨0, 0, 0, 0⟩ 7 1 1).ret = 0 →
      (allocate_stack_storage 12 ⟨0, some 65536, true, false, 0⟩
        ⟨0, 0, 0, 0⟩ 7 1 1).count = 7 + 1) ∧
    (deallocate_stack_storage ⟨0, none, true, false, 0⟩
        (allocate_stack_storage 12 ⟨0, some 65536, true, false, 0⟩
          ⟨0, 0, 0, 0⟩ 7 1 1).s
        (allocate_stack_storage 12 ⟨0, some 65536, true, false, 0⟩
          ⟨0, 0, 0, 0⟩ 7 1 1).count).count = 7 := by
  have h := stack_count_balance 12 ⟨0, some 65536, true, false, 0⟩
    ⟨0, none, true, false, 0⟩ ⟨0, 0, 0, 0⟩ 7 1 1
  refine ⟨h.1, ?_⟩
  exact h.2.2.2 (by decide) (by decide) (by decide) (by decide) (by decide)
    (Or.inl rfl) (by intro a ha; cases ha; exact ⟨by decide, by decide⟩)
    (by decide)

/-- C7 witness: with guard size 0 and page size 4096, requesting one byte
yields a single malloc of 8192 bytes and no virtual-memory call. -/
theorem allocate_stack_storage_unguarded_witness :
    (∀ a ∈ (allocate_stack_storage 12 ⟨40960, none, true, false, 0⟩
        ⟨0, 0, 0, 0⟩ 0 1 0).trace, isVmCall a = false) ∧
    (allocate_stack_storage 12 ⟨40960, none, true, false, 0⟩
        ⟨0, 0, 0, 0⟩ 0 1 0).trace.countP isMalloc = 1 ∧
    OsAction.mallocCall 8192 40960 ∈
      (allocate_stack_storage 12 ⟨40960, none, true, false, 0⟩
        ⟨0, 0, 0, 0⟩ 0 1 0).trace := by
  have h := allocate_stack_storage_unguarded 12 ⟨40960, none, true, false, 0⟩
    ⟨0, 0, 0, 0⟩ 0 1 0 (by decide)
  have he : alignPage 12 (max (1 : Int) (2 ^ 12 * 2)) = 8192 := by decide
  rw [he] at h
  exact ⟨h.1, h.2.1, h.2.2.1⟩

end Bthread
